import Mathlib

/-!
Shallow embedding of the deepresearch backend: the iterative research agent
in backend/deep_research_agent.py, the search adapters in backend/search/,
and the job/event handling of backend/main.py, together with theorems that
settle the frozen claims about the natural-language specification.
-/

/-! ## String helpers modelling Python str operations -/

/-- Model of Python str.lower on one character, covering the ASCII letters
and the Latin-1 uppercase range (which contains every uppercase character
of the sufficiency phrase, in particular Ç and Õ). -/
def pyLowerChar (c : Char) : Char :=
  if ('A' ≤ c ∧ c ≤ 'Z') ∨ (('À' ≤ c ∧ c ≤ 'Þ') ∧ c ≠ '×') then
    Char.ofNat (c.toNat + 32)
  else c

/-- Model of Python str.lower, applied character by character. -/
def pyLower (s : String) : String :=
  ⟨s.data.map pyLowerChar⟩

/-- Whether the first character list is an initial segment of the second. -/
def charsBeginWith : List Char → List Char → Bool
  | [], _ => true
  | _ :: _, [] => false
  | a :: as, b :: bs => a == b && charsBeginWith as bs

/-- Model of the Python membership test needle in hay for strings, over
character lists. -/
def charsContain (needle : List Char) : List Char → Bool
  | [] => needle.isEmpty
  | c :: rest => charsBeginWith needle (c :: rest) || charsContain needle rest

/-- Drops leading whitespace characters. -/
def dropLeadingWs : List Char → List Char
  | [] => []
  | c :: rest => if c.isWhitespace then dropLeadingWs rest else c :: rest

/-- Model of Python str.strip with no arguments: whitespace removed from
both ends. -/
def pyStrip (s : String) : String :=
  ⟨(dropLeadingWs (dropLeadingWs s.data).reverse).reverse⟩

/-! ## Data model of the research pipeline (deep_research_agent.py) -/

/-- One enriched search result, as assembled in execute_search. -/
structure SearchResult where
  title : String
  url : String
  snippet : String
  content : String
  error : Bool
  sourceType : String
deriving DecidableEq

/-- One per-site summary, as appended in summarize_sites. -/
structure SiteSummary where
  title : String
  url : String
  summary : String
  sourceType : String
deriving DecidableEq

/-- The ResearchState TypedDict of deep_research_agent.py.  The sources
field is initialised to an empty value and set to the formatted source
block (a string) by generate_report, so it is modelled as a String. -/
structure ResearchState where
  query : String
  searchResults : List SearchResult
  siteSummaries : List SiteSummary
  analysis : String
  finalReport : String
  iteration : Nat
  maxIterations : Int
  searchQueries : List String
  sources : String
  currentSearchQuery : String
  searchMode : String
deriving DecidableEq

/-- The literal sufficiency phrase tested in should_continue. -/
def sufficiencyPhrase : String := "informações suficientes"

/-- Whether the analysis contains the sufficiency phrase after Python
lowercasing, modelling the test in should_continue. -/
def containsPhrase (analysis : String) : Bool :=
  charsContain sufficiencyPhrase.data (pyLower analysis).data

/-- DeepResearchAgent.should_continue: finish once the iteration counter
reaches max_iterations, or once the cumulative analysis is longer than
2000 characters and contains the sufficiency phrase case-insensitively. -/
def should_continue (s : ResearchState) : String :=
  if (s.iteration : Int) ≥ s.maxIterations then "finish"
  else if 2000 < s.analysis.length ∧ containsPhrase s.analysis = true then "finish"
  else "continue"

/-- The fixed 4-slot search-mode schedule of plan_search (source line 167),
weighted 2:1:1 across google:arxiv:wikipedia. -/
def searchModeOptions : List String := ["google", "arxiv", "google", "wikipedia"]

/-- The mode and query chosen by one call of plan_search. -/
structure PlanChoice where
  mode : String
  searchQuery : String
deriving DecidableEq

/-- The selection logic of DeepResearchAgent.plan_search: fixed modes with
the original query on iterations 0, 1 and 2; from iteration 3 on, the
schedule entry at index iteration mod 4 together with the stripped
refinement produced by the text generator from the original query and the
cumulative analysis (the refine argument stands for that external call). -/
def plan_search (refine : String → String → String)
    (query analysis : String) (iteration : Nat) : PlanChoice :=
  if iteration = 0 then ⟨"google", query⟩
  else if iteration = 1 then ⟨"arxiv", query⟩
  else if iteration = 2 then ⟨"wikipedia", query⟩
  else ⟨searchModeOptions.getD (iteration % 4) "", pyStrip (refine query analysis)⟩

/-! ## The pipeline nodes as state transformers

Each node of the LangGraph workflow built in setup_graph is modelled as a
function on ResearchState.  Outputs of the external collaborators (the
text generator, the search adapters together with the content fetcher)
enter these functions as arguments. -/

/-- The plan_search node: records the chosen mode and query in the state
and appends a mode-tagged line to the query history. -/
def planF (refine : String → String → String) (s : ResearchState) : ResearchState :=
  let c := plan_search refine s.query s.analysis s.iteration
  { s with searchMode := c.mode, currentSearchQuery := c.searchQuery,
           searchQueries := s.searchQueries ++ [c.mode ++ ": " ++ c.searchQuery] }

/-- The execute_search node: the enriched results assembled from the
selected adapter and the content fetcher (external collaborators, passed
in as newResults) are appended to searchResults; none are removed. -/
def searchF (newResults : List SearchResult) (s : ResearchState) : ResearchState :=
  { s with searchResults := s.searchResults ++ newResults }

/-- The summarize_sites node: summaries produced by the text generator for
the most recent window of results (passed in as newSummaries) are appended
to siteSummaries. -/
def summarizeF (newSummaries : List SiteSummary) (s : ResearchState) : ResearchState :=
  { s with siteSummaries := s.siteSummaries ++ newSummaries }

/-- The analyze_results node: the consolidated analysis returned by the
text generator is appended to the cumulative analysis and the iteration
counter is incremented (source lines 479-482). -/
def analyzeF (analysisContent : String) (s : ResearchState) : ResearchState :=
  { s with analysis := s.analysis ++ "\n\n" ++ analysisContent,
           iteration := s.iteration + 1 }

/-! ## Source deduplication in generate_report -/

/-- One entry of the source list built by generate_report. -/
structure Source where
  title : String
  url : String
  srcType : String
deriving DecidableEq

/-- Whether a summary passes the truthiness filter of generate_report
(both url and title non-empty). -/
def summaryOk (s : SiteSummary) : Bool :=
  s.url ≠ "" && s.title ≠ ""

/-- The sources list accumulated by generate_report before deduplication:
wikipedia summaries first, then arxiv, then google, then everything else,
each filtered on non-empty url and title and tagged with its group type
(source lines 529-592). -/
def buildSources (summaries : List SiteSummary) : List Source :=
  ((summaries.filter (fun s => s.sourceType == "wikipedia")).filter summaryOk).map
      (fun s => ⟨s.title, s.url, "wikipedia"⟩)
  ++ ((summaries.filter (fun s => s.sourceType == "arxiv")).filter summaryOk).map
      (fun s => ⟨s.title, s.url, "arxiv"⟩)
  ++ ((summaries.filter (fun s => s.sourceType == "google")).filter summaryOk).map
      (fun s => ⟨s.title, s.url, "google"⟩)
  ++ ((summaries.filter
        (fun s => s.sourceType ≠ "google" && s.sourceType ≠ "arxiv"
                  && s.sourceType ≠ "wikipedia")).filter summaryOk).map
      (fun s => ⟨s.title, s.url, "other"⟩)

/-- The deduplication loop of generate_report (source lines 594-600): the
first occurrence of each URL is kept together with its type tag, later
occurrences are dropped; seen accumulates the URLs already retained. -/
def dedupByUrl : List Source → List String → List Source
  | [], _ => []
  | s :: rest, seen =>
      if s.url ∈ seen then dedupByUrl rest seen
      else s :: dedupByUrl rest (s.url :: seen)

/-- The unique_sources list of generate_report. -/
def unique_sources (summaries : List SiteSummary) : List Source :=
  dedupByUrl (buildSources summaries) []

/-- One line of the grouped citation block. -/
def sourceLine (s : Source) : String :=
  "- " ++ s.title ++ " (" ++ s.url ++ ")\n"

/-- One group of the citation block: the header followed by one line per
source, empty when the group is empty. -/
def sourceGroup (header : String) (ss : List Source) : String :=
  if ss.isEmpty then ""
  else header ++ String.join (ss.map sourceLine)

/-- The grouped citation block sources_text of generate_report (source
lines 602-630): unique sources partitioned by type. -/
def sourcesTextOf (summaries : List SiteSummary) : String :=
  let us := unique_sources summaries
  sourceGroup "\n### Fontes Enciclopédicas (Wikipedia)\n"
      (us.filter (fun s => s.srcType == "wikipedia"))
  ++ sourceGroup "\n### Fontes Acadêmicas (arXiv)\n"
      (us.filter (fun s => s.srcType == "arxiv"))
  ++ sourceGroup "\n### Fontes Gerais\n" (us.filter (fun s => s.srcType == "google"))
  ++ sourceGroup "\n### Outras Fontes\n" (us.filter (fun s => s.srcType == "other"))

/-- The generate_report node: stores the citation block in sources and the
report returned by the text generator in finalReport. -/
def reportF (reportContent : String) (s : ResearchState) : ResearchState :=
  { s with sources := sourcesTextOf s.siteSummaries, finalReport := reportContent }

/-! ## The workflow graph as a transition system -/

/-- The nodes of the compiled LangGraph workflow, plus the END node. -/
inductive PNode
  | plan
  | search
  | summarize
  | analyze
  | decide
  | report
  | done
deriving DecidableEq

/-- One step of the workflow: the edges added in setup_graph, with the
conditional edge out of analyze_results guarded by should_continue.  The
oracles refine, newResults, newSummaries, analysisContent and
reportContent stand for the outputs of the external collaborators during
that step. -/
inductive PipeStep : ResearchState × PNode → ResearchState × PNode → Prop
  | plan_step (s : ResearchState) (refine : String → String → String) :
      PipeStep (s, PNode.plan) (planF refine s, PNode.search)
  | search_step (s : ResearchState) (newResults : List SearchResult) :
      PipeStep (s, PNode.search) (searchF newResults s, PNode.summarize)
  | summarize_step (s : ResearchState) (newSummaries : List SiteSummary) :
      PipeStep (s, PNode.summarize) (summarizeF newSummaries s, PNode.analyze)
  | analyze_step (s : ResearchState) (analysisContent : String) :
      PipeStep (s, PNode.analyze) (analyzeF analysisContent s, PNode.decide)
  | decide_continue (s : ResearchState) :
      should_continue s = "continue" → PipeStep (s, PNode.decide) (s, PNode.plan)
  | decide_finish (s : ResearchState) :
      should_continue s = "finish" → PipeStep (s, PNode.decide) (s, PNode.report)
  | report_step (s : ResearchState) (reportContent : String) :
      PipeStep (s, PNode.report) (reportF reportContent s, PNode.done)

/-- The initial state built by DeepResearchAgent.research (source lines
699-711): iteration 0, everything else empty, initial mode google. -/
def initState (query : String) (maxIterations : Int) : ResearchState :=
  { query := query, searchResults := [], siteSummaries := [], analysis := "",
    finalReport := "", iteration := 0, maxIterations := maxIterations,
    searchQueries := [], sources := "", currentSearchQuery := "",
    searchMode := "google" }

/-- Reachability of a pipeline configuration from the initial state at the
plan node. -/
def PReach (query : String) (maxIterations : Int) (p : ResearchState × PNode) : Prop :=
  Relation.ReflTransGen PipeStep (initState query maxIterations, PNode.plan) p

/-! ## DeepResearchAgent.research: the value returned to the caller -/

/-- The fallback report substituted by research when the pipeline finishes
with an empty final report (source lines 720-732): the f-string template
around the query, the sources block and the cumulative analysis. -/
def defaultReport (query sources analysis : String) : String :=
  "\n                # Relatório de Pesquisa: " ++ query ++
  "\n                \n                *Não foi possível gerar um relatório detalhado. Resumo básico:*\n                \n                ## Fontes consultadas\n                "
  ++ sources ++
  "\n                \n                ## Análise \n                " ++ analysis ++
  "\n                "

/-- The string returned by DeepResearchAgent.research (source lines
713-738).  The outcome argument is the run of graph.ainvoke: ok carries
the final report of the returned state, error carries the message of an
exception raised by a stage.  Both branches return normally: the except
branch returns the error text instead of re-raising. -/
def agent_research (query sources analysis : String)
    (outcome : Except String String) : String :=
  match outcome with
  | Except.ok finalReport =>
      if finalReport = "" then defaultReport query sources analysis else finalReport
  | Except.error e => "Erro durante pesquisa: " ++ e

/-! ## Search adapters (backend/search/)

Each adapter tool wraps an external backend (the googlesearch library, the
arXiv export API, the Wikipedia API), modelled as a function taking the
query text and the result count requested by the tool.  The num_results
parameter of the execute helpers is never forwarded to the tools. -/

/-- One entry returned by a search tool. -/
structure SearchEntry where
  title : String
  url : String
  snippet : String
  sourceType : String
  errorMsg : Option String
deriving DecidableEq

/-- google_search_tool (google_search.py lines 16-42): asks the search
library for exactly 5 results and tags each URL with its position. -/
def google_search_tool (lib : String → Nat → List String) (query : String) :
    List SearchEntry :=
  (lib query 5).enum.map
    (fun p => ⟨p.2, p.2, "Resultado " ++ toString (p.1 + 1) ++ " para " ++ query,
               "google", none⟩)

/-- arxiv_search_tool (arxiv_search.py lines 8-54): queries the arXiv API
with max_results 3 over the all: field of the query. -/
def arxiv_search_tool (api : String → Nat → List SearchEntry) (query : String) :
    List SearchEntry :=
  api ("all:" ++ query) 3

/-- wikipedia_search_tool (wikipedia_search.py lines 9-48): queries the
Wikipedia search API with srlimit 1. -/
def wikipedia_search_tool (api : String → Nat → List SearchEntry) (query : String) :
    List SearchEntry :=
  api query 1

/-- execute_google_search (google_search.py lines 44-46): invokes the tool
with only the query; num_results is dropped. -/
def execute_google_search (lib : String → Nat → List String)
    (query : String) (_numResults : Nat) : List SearchEntry :=
  google_search_tool lib query

/-- execute_arxiv_search (arxiv_search.py lines 56-58): invokes the tool
with only the query; num_results is dropped. -/
def execute_arxiv_search (api : String → Nat → List SearchEntry)
    (query : String) (_numResults : Nat) : List SearchEntry :=
  arxiv_search_tool api query

/-- execute_wikipedia_search (wikipedia_search.py lines 50-52): invokes
the tool with only the query; num_results is dropped. -/
def execute_wikipedia_search (api : String → Nat → List SearchEntry)
    (query : String) (_numResults : Nat) : List SearchEntry :=
  wikipedia_search_tool api query

/-- execute_search (deep_research_agent.py lines 32-39): dispatches on the
search mode, defaulting to google. -/
def execute_search (lib : String → Nat → List String)
    (arxivApi wikiApi : String → Nat → List SearchEntry)
    (query searchMode : String) (numResults : Nat) : List SearchEntry :=
  if searchMode = "arxiv" then execute_arxiv_search arxivApi query numResults
  else if searchMode = "wikipedia" then execute_wikipedia_search wikiApi query numResults
  else execute_google_search lib query numResults

/-! ## Job registry and event log (backend/main.py)

One job is tracked: its research_tasks record, the type tags of the
events appended to research_events for it, and the control position of
the background execute_research task. -/

/-- The fields of a ResearchRequest body. -/
structure Req where
  query : String
  llm_provider : String
  api_key : Option String
  model_name : Option String
  max_iterations : Int
deriving DecidableEq

/-- The research_tasks record of one job.  partResult models the
partial_result field. -/
structure Job where
  status : String
  progress : Int
  partResult : String
  result : Option String
  error : Option String
deriving DecidableEq

/-- Control position of the background execute_research task: not yet
created, created but still before validation, running the agent, or
returned. -/
inductive TaskPhase
  | idle
  | validating
  | running
  | finished
deriving DecidableEq

/-- The server-side view of one job: the registry record, the event type
tags appended to its event log in order, and the task position. -/
structure Server where
  job : Option Job
  events : List String
  taskPhase : TaskPhase
deriving DecidableEq

/-- Truthiness of the api_key field under Python not: absent or empty. -/
def apiKeyMissing : Option String → Bool
  | none => true
  | some s => s = ""

/-- The validation performed at the top of execute_research (main.py lines
277-285): empty stripped query, openai without api_key, or an unknown
provider each raise a ValueError with the given message. -/
def validationError (r : Req) : Option String :=
  if pyStrip r.query = "" then some "Query não pode estar vazia"
  else if r.llm_provider = "openai" ∧ apiKeyMissing r.api_key = true then
    some "API key necessária para OpenAI"
  else if r.llm_provider ≠ "openai" ∧ r.llm_provider ≠ "ollama" then
    some "Provider deve ser openai ou ollama"
  else none

/-- research_endpoint (main.py lines 231-272): creates the job record in
started status with progress 0 and empty partial result, appends an init
event, and creates the background task. -/
def submitF (s : Server) : Server :=
  { s with job := some { status := "started", progress := 0, partResult := "",
                         result := none, error := none },
           events := s.events ++ ["init"],
           taskPhase := TaskPhase.validating }

/-- The outer except branch of execute_research (main.py lines 353-375),
reached when validation or agent construction raises: status failed, the
message stored in error, the result rebuilt around the partial result only
when one exists, and an error event appended. -/
def validateFailF (e : String) (s : Server) : Server :=
  { s with job := s.job.map (fun j =>
      { j with status := "failed", error := some e,
               result := if j.partResult ≠ "" then
                   some ("# Resultado Parcial (Erro)\n\n" ++ j.partResult
                         ++ "\n\n## Erro\n\n" ++ e)
                 else j.result }),
           events := s.events ++ ["error"],
           taskPhase := TaskPhase.finished }

/-- execute_research after successful validation (main.py line 288): the
status is set to running unconditionally and the agent starts. -/
def validateOkF (s : Server) : Server :=
  { s with job := s.job.map (fun j => { j with status := "running" }),
           taskPhase := TaskPhase.running }

/-- The progress heuristic of status_callback_factory (main.py lines
216-225). -/
def callbackProgress (t : String) (p : Int) : Int :=
  if t = "start" then 10
  else if t = "plan" then min (p + 5) 90
  else if t = "search" then min (p + 5) 90
  else if t = "analyze" then min (p + 10) 90
  else if t = "report" then 90
  else p

/-- The partial-result accumulation of status_callback_factory (main.py
lines 205-213): on analyze_complete with a non-empty insights preview the
preview is appended to the partial result. -/
def callbackPartial (t insight : String) (j : Job) : Job :=
  if t = "analyze_complete" ∧ insight ≠ "" then
    if j.partResult ≠ "" then
      { j with partResult := j.partResult ++ "\n\n## Nova Análise\n\n" ++ insight }
    else { j with partResult := "# Resultados Parciais\n\n" ++ insight }
  else j

/-- One invocation of the status callback (main.py lines 187-229): the
event is appended to the log unconditionally, then progress and the
partial result are updated. -/
def callbackF (t insight : String) (s : Server) : Server :=
  { s with job := s.job.map (fun j =>
      callbackPartial t insight { j with progress := callbackProgress t j.progress }),
           events := s.events ++ [t] }

/-- The success branch of execute_research (main.py lines 300-326),
reached whenever agent.research returns (it always returns, even after a
stage exception): status completed, the returned string stored as the
result, progress forced to 100, and a complete event appended.  The
current job status is never consulted. -/
def pipelineDoneF (r : String) (s : Server) : Server :=
  { s with job := s.job.map (fun j =>
      { j with status := "completed", result := some r, progress := 100 }),
           events := s.events ++ ["complete"],
           taskPhase := TaskPhase.finished }

/-- The asyncio.TimeoutError branch of execute_research (main.py lines
328-351): status timeout, the partial result (or a fixed notice) stored
as the result, and an error event appended. -/
def timeoutF (s : Server) : Server :=
  { s with job := s.job.map (fun j =>
      { j with status := "timeout",
               result := some (if j.partResult = "" then
                   "# Resultado Parcial (Timeout)\n\nA pesquisa excedeu o tempo limite antes de ser concluída."
                 else j.partResult) }),
           events := s.events ++ ["error"],
           taskPhase := TaskPhase.finished }

/-- cancel_research (main.py lines 457-484) in the case where the job is
still started or running: the status is flipped to cancelled and a
cancelled event is appended.  The background task is not touched. -/
def cancelF (s : Server) : Server :=
  { s with job := s.job.map (fun j => { j with status := "cancelled" }),
           events := s.events ++ ["cancelled"] }

/-- The completion event synthesised by event_stream (main.py lines
102-120) when the job is completed with a result and no complete event
has been appended yet. -/
def streamCompleteF (s : Server) : Server :=
  { s with events := s.events ++ ["complete"] }

/-- Every status type passed to log_status by DeepResearchAgent, one per
call site of deep_research_agent.py (lines 128, 150, 179, 191, 201, 212,
229, 240, 246, 266, 387, 393, 396, 403, 476, 487, 501, 506, 509, 514,
634, 684, 688, 697, 714, 716, 721, 737 and invoke_llm line 95). -/
def agentStatusTypes : List String :=
  ["plan", "search", "extract", "extract_detail", "search_complete",
   "site_summary", "site_summary_complete", "site_summaries_complete",
   "analyze", "analyze_complete", "decision", "report", "report_complete",
   "start", "pipeline_start", "complete", "warning", "error"]

/-- One interleaving step of the system handling one job: the submission,
the background task advancing, a status callback, a cancel request, or
the stream relay synthesising a completion event. -/
inductive SStep (req : Req) : Server → Server → Prop
  | submit (s : Server) : s.job = none → s.taskPhase = TaskPhase.idle →
      SStep req s (submitF s)
  | validate_fail (s : Server) (e : String) : s.taskPhase = TaskPhase.validating →
      validationError req = some e → SStep req s (validateFailF e s)
  | validate_ok (s : Server) : s.taskPhase = TaskPhase.validating →
      validationError req = none → SStep req s (validateOkF s)
  | callback (s : Server) (t insight : String) : s.taskPhase = TaskPhase.running →
      t ∈ agentStatusTypes → SStep req s (callbackF t insight s)
  | pipeline_done (s : Server) (query sources analysis : String)
      (outcome : Except String String) : s.taskPhase = TaskPhase.running →
      SStep req s (pipelineDoneF (agent_research query sources analysis outcome) s)
  | pipeline_timeout (s : Server) : s.taskPhase = TaskPhase.running →
      SStep req s (timeoutF s)
  | cancel (s : Server) (j : Job) : s.job = some j →
      (j.status = "started" ∨ j.status = "running") → SStep req s (cancelF s)
  | stream_complete (s : Server) (j : Job) : s.job = some j →
      j.status = "completed" → j.result.isSome = true →
      "complete" ∉ s.events → SStep req s (streamCompleteF s)

/-- The empty server state before the job is submitted. -/
def s0 : Server := { job := none, events := [], taskPhase := TaskPhase.idle }

/-- Reachability of a server state from the empty state under a fixed
request. -/
def SReach (req : Req) (s : Server) : Prop :=
  Relation.ReflTransGen (SStep req) s0 s

/-! ## Event type sets and concrete objects used by the theorems -/

/-- The closed tag set asserted by the specification for event types
(spec section 3). -/
def claimedEventTypes : List String :=
  ["plan", "search", "search_complete", "extract", "extract_detail",
   "site_summary", "analyze", "analyze_complete", "decision", "report",
   "report_complete", "complete", "error", "timeout", "cancelled",
   "connected", "disconnected"]

/-- The event types the code can actually append to research_events: init
from research_endpoint, complete and error and cancelled from main.py,
and every agent callback type. -/
def actualEventTypes : List String :=
  ["init", "start", "pipeline_start", "plan", "search", "extract",
   "extract_detail", "search_complete", "site_summary",
   "site_summary_complete", "site_summaries_complete", "analyze",
   "analyze_complete", "decision", "report", "report_complete", "complete",
   "warning", "error", "cancelled"]

/-- A well-formed request that passes validation. -/
def demoReq : Req :=
  { query := "energia solar", llm_provider := "ollama", api_key := none,
    model_name := none, max_iterations := 3 }

/-- A request whose query is whitespace only, so that validation fails. -/
def emptyReq : Req :=
  { query := "   ", llm_provider := "ollama", api_key := none,
    model_name := none, max_iterations := 3 }

/-- The server state after: submission, successful validation, a cancel
request, a report callback from the still-running agent, and the normal
return of the pipeline. -/
def c1FinalState : Server :=
  pipelineDoneF (agent_research "energia solar" "" "" (Except.ok "Relatório final"))
    (callbackF "report" "" (cancelF (validateOkF (submitF s0))))

/-- The server state after: submission, successful validation, and the
return of agent.research for a run in which a stage raised. -/
def c2FinalState : Server :=
  pipelineDoneF (agent_research "energia solar" "" "" (Except.error "boom"))
    (validateOkF (submitF s0))

/-- The pipeline state after one full plan, search, summarize, analyze
round starting from max_iterations 0. -/
def c6BadState : ResearchState :=
  analyzeF "análise" (summarizeF [] (searchF [] (planF (fun _ _ => "")
    (initState "clima" 0))))

/-- Two summaries sharing one URL but coming from two different search
modes. -/
def demoSummaries : List SiteSummary :=
  [{ title := "Artigo A", url := "https://example.org/a", summary := "resumo a",
     sourceType := "google" },
   { title := "Artigo B", url := "https://example.org/a", summary := "resumo b",
     sourceType := "arxiv" }]

/-- The phase-indexed invariant of the workflow for a run with
max_iterations m: before the analyze increment the counter is strictly
below m, afterwards it is at most m. -/
def pipeInv (m : Int) (p : ResearchState × PNode) : Prop :=
  p.1.maxIterations = m ∧
  (match p.2 with
   | PNode.plan | PNode.search | PNode.summarize | PNode.analyze =>
       (p.1.iteration : Int) < m
   | PNode.decide | PNode.report | PNode.done => (p.1.iteration : Int) ≤ m)


/-! ## Helper lemmas -/

/-- When should_continue answers continue, the iteration counter is still
strictly below max_iterations. -/
theorem should_continue_continue_lt (s : ResearchState)
    (h : should_continue s = "continue") :
    (s.iteration : Int) < s.maxIterations := by
  unfold should_continue at h
  split_ifs at h with h1 h2
  · exact absurd h (by decide)
  · exact absurd h (by decide)
  · omega

/-- The deduplication loop keeps pairwise distinct URLs, keeps only
entries of the input list, and never keeps a URL already seen. -/
theorem dedupByUrl_spec (l : List Source) (seen : List String) :
    (dedupByUrl l seen).Pairwise (fun a b => a.url ≠ b.url) ∧
    ∀ s ∈ dedupByUrl l seen, s ∈ l ∧ s.url ∉ seen := by
  induction l generalizing seen with
  | nil => simp [dedupByUrl]
  | cons a l ih =>
    by_cases h : a.url ∈ seen
    · rw [dedupByUrl, if_pos h]
      obtain ⟨hp, hm⟩ := ih seen
      exact ⟨hp, fun s hs => ⟨List.mem_cons_of_mem _ (hm s hs).1, (hm s hs).2⟩⟩
    · rw [dedupByUrl, if_neg h]
      obtain ⟨hp, hm⟩ := ih (a.url :: seen)
      constructor
      · refine List.Pairwise.cons ?_ hp
        intro b hb hab
        exact (hm b hb).2 (by rw [← hab]; exact List.mem_cons_self _ _)
      · intro s hs
        rcases List.mem_cons.mp hs with rfl | hs2
        · exact ⟨List.mem_cons_self _ _, h⟩
        · obtain ⟨h1, h2⟩ := hm s hs2
          exact ⟨List.mem_cons_of_mem _ h1,
                 fun hseen => h2 (List.mem_cons_of_mem _ hseen)⟩

/-- The fallback report of research is never the empty string. -/
theorem defaultReport_ne_empty (q s a : String) : defaultReport q s a ≠ "" := by
  intro h
  have hl : (defaultReport q s a).length = 0 := by rw [h]; rfl
  rw [defaultReport] at hl
  simp only [String.length_append] at hl
  have h1 : 0 < ("\n                ").length := by decide
  omega

/-- Every agent callback type is among the actually appended types. -/
theorem agent_types_actual : ∀ t ∈ agentStatusTypes, t ∈ actualEventTypes := by
  decide

/-- Every pipeline step preserves the phase-indexed iteration invariant. -/
theorem pipeInv_step (m : Int) (p q : ResearchState × PNode)
    (hstep : PipeStep p q) (hinv : pipeInv m p) : pipeInv m q := by
  cases hstep with
  | plan_step s refine => exact hinv
  | search_step s newResults => exact hinv
  | summarize_step s newSummaries => exact hinv
  | analyze_step s analysisContent =>
    refine ⟨hinv.1, ?_⟩
    have h := hinv.2
    simp only [pipeInv, analyzeF] at h ⊢
    push_cast
    omega
  | decide_continue s h =>
    refine ⟨hinv.1, ?_⟩
    have := should_continue_continue_lt s h
    rw [hinv.1] at this
    exact this
  | decide_finish s h => exact hinv
  | report_step s reportContent => exact hinv

/-- The invariant holds at every reachable pipeline configuration of a
run with positive max_iterations. -/
theorem pipeInv_reach (q : String) (m : Int) (hm : 1 ≤ m)
    (p : ResearchState × PNode) (h : PReach q m p) : pipeInv m p := by
  unfold PReach at h
  induction h with
  | refl =>
    refine ⟨rfl, ?_⟩
    show ((0 : Nat) : Int) < m
    omega
  | tail hsteps hstep ih => exact pipeInv_step m _ _ hstep ih

/-! ## Claim C4 -/

/-- C4: should_continue returns finish exactly when the iteration counter
has reached max_iterations, or the cumulative analysis is strictly longer
than 2000 characters and contains the sufficiency phrase
case-insensitively; in every other state it returns continue. -/
theorem c4_should_continue_iff (s : ResearchState) :
    (should_continue s = "finish" ↔
      ((s.iteration : Int) ≥ s.maxIterations ∨
        (2000 < s.analysis.length ∧ containsPhrase s.analysis = true))) ∧
    (should_continue s = "continue" ↔
      ¬ ((s.iteration : Int) ≥ s.maxIterations ∨
        (2000 < s.analysis.length ∧ containsPhrase s.analysis = true))) := by
  unfold should_continue
  split_ifs with h1 h2
  · exact ⟨⟨fun _ => Or.inl h1, fun _ => rfl⟩,
           ⟨fun h => absurd h (by decide), fun hn => absurd (Or.inl h1) hn⟩⟩
  · exact ⟨⟨fun _ => Or.inr h2, fun _ => rfl⟩,
           ⟨fun h => absurd h (by decide), fun hn => absurd (Or.inr h2) hn⟩⟩
  · refine ⟨⟨fun h => absurd h (by decide), fun hor => ?_⟩,
            ⟨fun _ => fun hor => ?_, fun _ => rfl⟩⟩
    · exact (hor.elim (fun ha => absurd ha h1) (fun hb => absurd hb h2))
    · exact (hor.elim (fun ha => absurd ha h1) (fun hb => absurd hb h2))

/-! ## Claim C5 -/

/-- C5: plan_search fixes mode google with the original query on iteration
0, arxiv on iteration 1 and wikipedia on iteration 2; from iteration 3 on
it takes the schedule entry at index iteration mod 4 and the stripped
refinement obtained from the text generator out of the original query and
the cumulative analysis. -/
theorem c5_plan_search_schedule (refine : String → String → String)
    (q a : String) :
    plan_search refine q a 0 = ⟨"google", q⟩ ∧
    plan_search refine q a 1 = ⟨"arxiv", q⟩ ∧
    plan_search refine q a 2 = ⟨"wikipedia", q⟩ ∧
    ∀ i : Nat, 3 ≤ i →
      plan_search refine q a i =
        ⟨searchModeOptions.getD (i % 4) "", pyStrip (refine q a)⟩ := by
  refine ⟨rfl, rfl, rfl, ?_⟩
  intro i hi
  unfold plan_search
  have h0 : i ≠ 0 := by omega
  have h1 : i ≠ 1 := by omega
  have h2 : i ≠ 2 := by omega
  simp [h0, h1, h2]

/-- Witness for C5 at iteration 5 with a concrete refinement function:
slot 5 mod 4 of the schedule is arxiv and the refined query is stripped. -/
theorem c5_plan_search_witness :
    plan_search (fun _ a => a) "clima" " subtema " 5 = ⟨"arxiv", "subtema"⟩ := by
  have h := (c5_plan_search_schedule (fun _ a => a) "clima" " subtema ").2.2.2 5
    (by decide)
  exact h.trans (by decide)

/-! ## Claim C6 -/

/-- Counterexample to C6 as stated: with max_iterations 0 supplied at
submission, the pipeline configuration reached after one full round has
iteration 1, exceeding max_iterations. -/
theorem c6_iteration_exceeds_max_at_zero :
    PReach "clima" 0 (c6BadState, PNode.decide) ∧
    ¬ ((c6BadState.iteration : Int) ≤ c6BadState.maxIterations) := by
  constructor
  · exact Relation.ReflTransGen.head
      (PipeStep.plan_step (initState "clima" 0) (fun _ _ => ""))
      (Relation.ReflTransGen.head
        (PipeStep.search_step _ [])
        (Relation.ReflTransGen.head
          (PipeStep.summarize_step _ [])
          (Relation.ReflTransGen.head
            (PipeStep.analyze_step _ "análise")
            Relation.ReflTransGen.refl)))
  · decide

/-- C6 amended: for every run whose supplied max_iterations is at least 1,
every reachable pipeline configuration satisfies
iteration less-or-equal max_iterations. -/
theorem c6_iteration_le_max_of_pos (q : String) (m : Int) (hm : 1 ≤ m)
    (p : ResearchState × PNode) (h : PReach q m p) :
    (p.1.iteration : Int) ≤ p.1.maxIterations := by
  obtain ⟨s, n⟩ := p
  obtain ⟨hmax, hrest⟩ := pipeInv_reach q m hm (s, n) h
  rw [hmax]
  cases n
  all_goals first
    | exact le_of_lt hrest
    | exact hrest

/-- Witness for C6 amended at the initial configuration of a run with
max_iterations 1. -/
theorem c6_iteration_witness :
    (((initState "clima" 1).iteration : Int) ≤ (initState "clima" 1).maxIterations) :=
  c6_iteration_le_max_of_pos "clima" 1 (by decide)
    (initState "clima" 1, PNode.plan) Relation.ReflTransGen.refl

/-! ## Claim C7 -/

/-- C7: the deduplicated source list of generate_report has pairwise
distinct URLs, even across search modes, and every retained entry is one
of the grouped, type-tagged entries built from the site summaries, so it
keeps its source type. -/
theorem c7_unique_sources_nodup (summaries : List SiteSummary) :
    (unique_sources summaries).Pairwise (fun a b => a.url ≠ b.url) ∧
    ∀ src ∈ unique_sources summaries, src ∈ buildSources summaries := by
  obtain ⟨hp, hm⟩ := dedupByUrl_spec (buildSources summaries) []
  exact ⟨hp, fun src hs => (hm src hs).1⟩

/-- Witness for C7 on two summaries sharing a URL across modes: the
retained entry keeps its arxiv tag and stems from the built source list. -/
theorem c7_unique_sources_witness :
    ({ title := "Artigo B", url := "https://example.org/a",
       srcType := "arxiv" } : Source) ∈ buildSources demoSummaries :=
  (c7_unique_sources_nodup demoSummaries).2 _ (by decide)

/-! ## Claim C9 -/

/-- C9: execute_search never forwards num_results to an adapter, so its
result is independent of that argument for every query and mode; the
request sizes are fixed inside the tools (5 for google, 3 for arxiv, 1
for wikipedia). -/
theorem c9_num_results_ignored (lib : String → Nat → List String)
    (arxivApi wikiApi : String → Nat → List SearchEntry)
    (q mode : String) (n1 n2 : Nat) :
    execute_search lib arxivApi wikiApi q mode n1
      = execute_search lib arxivApi wikiApi q mode n2 := rfl

/-! ## Claim C10 -/

/-- C10: whenever the graph pipeline returns without raising, research
returns a non-empty string: an empty final report is replaced by the
non-empty fallback report. -/
theorem c10_result_nonempty (q sources analysis finalReport : String) :
    agent_research q sources analysis (Except.ok finalReport) ≠ "" := by
  show (if finalReport = "" then defaultReport q sources analysis
        else finalReport) ≠ ""
  by_cases h : finalReport = ""
  · rw [if_pos h]
    exact defaultReport_ne_empty q sources analysis
  · rw [if_neg h]
    exact h

/-! ## Claim C1 -/

/-- Evidence for the C1 code bug: a cancel request while the job is
running flips the status to cancelled and appends a cancelled event, but
execute_research and the agent never consult that flag, so the
still-running pipeline appends a report event and, on return, a complete
event while overwriting the status to completed. -/
theorem c1_cancel_then_complete_trace :
    SReach demoReq c1FinalState ∧
    c1FinalState.events = ["init", "cancelled", "report", "complete"] ∧
    c1FinalState.job.map Job.status = some "completed" := by
  refine ⟨?_, rfl, rfl⟩
  unfold SReach
  refine Relation.ReflTransGen.head (SStep.submit s0 rfl rfl) ?_
  refine Relation.ReflTransGen.head
    (SStep.validate_ok (submitF s0) rfl (by decide)) ?_
  refine Relation.ReflTransGen.head
    (SStep.cancel (validateOkF (submitF s0)) _ rfl (Or.inr rfl)) ?_
  refine Relation.ReflTransGen.head
    (SStep.callback _ "report" "" rfl (by decide)) ?_
  exact Relation.ReflTransGen.single
    (SStep.pipeline_done _ "energia solar" "" "" (Except.ok "Relatório final") rfl)

/-! ## Claim C2 -/

/-- Evidence for the C2 code bug: when a pipeline stage raises,
agent.research catches the exception and returns the error text, so
execute_research stores that text as the result and marks the job
completed, never failed. -/
theorem c2_stage_error_marks_completed :
    SReach demoReq c2FinalState ∧
    c2FinalState.job.map Job.status = some "completed" ∧
    c2FinalState.job.bind Job.result = some "Erro durante pesquisa: boom" := by
  refine ⟨?_, rfl, rfl⟩
  unfold SReach
  refine Relation.ReflTransGen.head (SStep.submit s0 rfl rfl) ?_
  refine Relation.ReflTransGen.head
    (SStep.validate_ok (submitF s0) rfl (by decide)) ?_
  exact Relation.ReflTransGen.single
    (SStep.pipeline_done _ "energia solar" "" "" (Except.error "boom") rfl)

/-! ## Claim C3 -/

/-- Counterexample to C3 as stated: for a whitespace-only query the job
record and an init event already exist right after submission — the
request is not rejected before a job is created. -/
theorem c3_job_created_before_validation :
    SReach emptyReq (submitF s0) ∧
    (submitF s0).job.isSome = true ∧
    (submitF s0).events = ["init"] :=
  ⟨Relation.ReflTransGen.single (SStep.submit s0 rfl rfl), rfl, rfl⟩

/-- C3 amended: an empty query, or provider openai without an API key,
makes the validation inside the background task fail after the job record
and the init event were created; the already-created job then transitions
to failed with an error event appended, and the agent never runs. -/
theorem c3_validation_fails_after_creation (req : Req)
    (h : pyStrip req.query = "" ∨
         (req.llm_provider = "openai" ∧ apiKeyMissing req.api_key = true)) :
    ∃ e, validationError req = some e ∧
      SReach req (validateFailF e (submitF s0)) ∧
      (validateFailF e (submitF s0)).events = ["init", "error"] ∧
      (validateFailF e (submitF s0)).job.map Job.status = some "failed" ∧
      (validateFailF e (submitF s0)).taskPhase = TaskPhase.finished := by
  have key : ∀ e, validationError req = some e →
      SReach req (validateFailF e (submitF s0)) := fun e he =>
    Relation.ReflTransGen.head (SStep.submit s0 rfl rfl)
      (Relation.ReflTransGen.single (SStep.validate_fail (submitF s0) e rfl he))
  by_cases hq : pyStrip req.query = ""
  · have he : validationError req = some "Query não pode estar vazia" := by
      unfold validationError
      rw [if_pos hq]
    exact ⟨_, he, key _ he, rfl, rfl, rfl⟩
  · rcases h with h | ⟨hp, hk⟩
    · exact absurd h hq
    · have he : validationError req = some "API key necessária para OpenAI" := by
        unfold validationError
        rw [if_neg hq, if_pos ⟨hp, hk⟩]
      exact ⟨_, he, key _ he, rfl, rfl, rfl⟩

/-- Witness for C3 amended at the whitespace-only request. -/
theorem c3_validation_witness :
    ∃ e, validationError emptyReq = some e ∧
      SReach emptyReq (validateFailF e (submitF s0)) ∧
      (validateFailF e (submitF s0)).events = ["init", "error"] ∧
      (validateFailF e (submitF s0)).job.map Job.status = some "failed" ∧
      (validateFailF e (submitF s0)).taskPhase = TaskPhase.finished :=
  c3_validation_fails_after_creation emptyReq (Or.inl (by decide))

/-! ## Claim C8 -/

/-- Counterexample to C8 as stated: the init event appended at submission
has a type outside the closed tag set given by the specification. -/
theorem c8_init_event_outside_claimed_set :
    SReach demoReq (submitF s0) ∧
    "init" ∈ (submitF s0).events ∧
    "init" ∉ claimedEventTypes :=
  ⟨Relation.ReflTransGen.single (SStep.submit s0 rfl rfl),
   by decide, by decide⟩

/-- C8 amended: every event ever appended to the job's event log has a
type in the actual closed set, which additionally contains init, start,
pipeline_start, site_summary_complete, site_summaries_complete and
warning, while connected, disconnected and timeout are only ever emitted
on the SSE stream, never appended to the log. -/
theorem c8_events_in_actual_set (req : Req) (s : Server) (h : SReach req s) :
    ∀ t ∈ s.events, t ∈ actualEventTypes := by
  unfold SReach at h
  induction h with
  | refl => intro t ht; exact absurd ht (List.not_mem_nil t)
  | tail hsteps hstep ih =>
    intro t ht
    cases hstep with
    | submit h1 h2 =>
      simp only [submitF, List.mem_append, List.mem_singleton] at ht
      rcases ht with h | rfl
      · exact ih t h
      · decide
    | validate_fail e h1 h2 =>
      simp only [validateFailF, List.mem_append, List.mem_singleton] at ht
      rcases ht with h | rfl
      · exact ih t h
      · decide
    | validate_ok h1 h2 =>
      simp only [validateOkF] at ht
      exact ih t ht
    | callback t0 insight h1 h2 =>
      simp only [callbackF, List.mem_append, List.mem_singleton] at ht
      rcases ht with h | rfl
      · exact ih t h
      · exact agent_types_actual _ h2
    | pipeline_done query sources analysis outcome h1 =>
      simp only [pipelineDoneF, List.mem_append, List.mem_singleton] at ht
      rcases ht with h | rfl
      · exact ih t h
      · decide
    | pipeline_timeout h1 =>
      simp only [timeoutF, List.mem_append, List.mem_singleton] at ht
      rcases ht with h | rfl
      · exact ih t h
      · decide
    | cancel j h1 h2 =>
      simp only [cancelF, List.mem_append, List.mem_singleton] at ht
      rcases ht with h | rfl
      · exact ih t h
      · decide
    | stream_complete j h1 h2 h3 h4 =>
      simp only [streamCompleteF, List.mem_append, List.mem_singleton] at ht
      rcases ht with h | rfl
      · exact ih t h
      · decide

/-- Witness for C8 amended at the state right after submission. -/
theorem c8_events_witness : "init" ∈ actualEventTypes :=
  c8_events_in_actual_set demoReq (submitF s0)
    (Relation.ReflTransGen.single (SStep.submit s0 rfl rfl)) "init" (by decide)
